import Mathlib

/-!
Shallow embedding of `src/PixelStick/XSPI/XSPI.h` (PixelStick repository).

The header is a register-level driver for the AVR XMEGA SPI peripheral and
for a USART operated in master-SPI mode.  Machine registers are 8-bit, so
every register assignment truncates its value modulo 256; `uint16_t` and
`uint32_t` intermediates truncate modulo 2^16 and 2^32.  Busy-wait loops on
a status flag are embedded with explicit fuel (`none` models a spin that
never observes the flag).  The peripheral silicon behind the data register
is not part of the repository; it is modelled by a parametric device model
`DevModel` that says which byte a data-register read yields and how the
device reacts to a data-register write, with the flag-setting behaviour of
the simulated peripheral (a write completes the transfer, setting the
completion flag).  Every register access is logged in an event trace so
that frame properties (which registers a function touches) are provable.
-/

namespace XSPI

/-! ## Bit-mask constants

Values of the device-header symbols used by `XSPI.h` (AVR XMEGA device
headers; `avr/io.h` is vendor code outside this repository, the values are
the standard XMEGA ones). -/

def SPI_CLK2X_bm : Nat := 0x80
def SPI_ENABLE_bm : Nat := 0x40
def SPI_DORD_bm : Nat := 0x20
def SPI_MASTER_bm : Nat := 0x10
def SPI_IF_bm : Nat := 0x80

/-- SPI clock/polarity mode (`SPI_MODE_t`), a 2-bit field at bits 2..3. -/
inductive SPI_MODE_t
  | mode0
  | mode1
  | mode2
  | mode3
deriving DecidableEq, Repr

/-- Group-configuration value of each `SPI_MODE_t` member. -/
def SPI_MODE_t.bits : SPI_MODE_t → Nat
  | .mode0 => 0x00
  | .mode1 => 0x04
  | .mode2 => 0x08
  | .mode3 => 0x0C

/-- SPI clock prescaler (`SPI_PRESCALER_t`), a 2-bit field at bits 0..1. -/
inductive SPI_PRESCALER_t
  | div4
  | div16
  | div64
  | div128
deriving DecidableEq, Repr

/-- Group-configuration value of each `SPI_PRESCALER_t` member. -/
def SPI_PRESCALER_t.bits : SPI_PRESCALER_t → Nat
  | .div4 => 0x00
  | .div16 => 0x01
  | .div64 => 0x02
  | .div128 => 0x03

def USART_TXCIF_bm : Nat := 0x40
def USART_DREIF_bm : Nat := 0x20
def USART_RXEN_bm : Nat := 0x10
def USART_TXEN_bm : Nat := 0x08
def USART_CMODE_MSPI_gc : Nat := 0xC0
def USART_CHSIZE2_bm : Nat := 0x04
def USART_CHSIZE1_bm : Nat := 0x02

/-- `#define USART_UDORD_bm USART_CHSIZE2_bm` in `XSPI.h`. -/
def USART_UDORD_bm : Nat := USART_CHSIZE2_bm

/-- `#define USART_UCPHA_bm USART_CHSIZE1_bm` in `XSPI.h`. -/
def USART_UCPHA_bm : Nat := USART_CHSIZE1_bm

/-! ## Register blocks and event traces -/

/-- Registers touched by the functions of `XSPI.h`. -/
inductive Reg
  | DATA
  | STATUS
  | CTRL
  | DIRSET
  | DIRCLR
  | BAUDCTRLA
  | BAUDCTRLB
  | CTRLB
  | CTRLC
deriving DecidableEq, Repr

/-- One memory-mapped register access. -/
inductive Event
  | read (r : Reg) (v : Nat)
  | write (r : Reg) (v : Nat)
deriving DecidableEq, Repr

/-- The I/O port block (`PORT_t`): pin-direction register and output
register.  A write to the `DIRSET` register sets the written mask's bits in
`DIR`; `XSPI.h` never touches `OUT`. -/
structure PORT_t where
  DIR : Nat
  OUT : Nat
deriving DecidableEq, Repr

/-- The pin-number part of `xspi_config_t`.  The `spi` and `port` pointers
of the C struct become explicit state arguments of the functions. -/
structure xspi_config_t where
  mosi_pin : Nat
  miso_pin : Nat
  sck_pin : Nat
  ss_pin : Nat
deriving DecidableEq, Repr

/-- A device model: the silicon behind the data register.  `onWrite` is the
device's reaction to a byte written to the data register (the byte is
already truncated to 8 bits); `onRead` is the byte a data-register read
yields together with the device's next state. -/
structure DevModel (δ : Type) where
  onWrite : δ → Nat → δ
  onRead : δ → Nat × δ

/-- A peripheral that yields a fixed stream of bytes on successive
data-register reads and ignores written data. -/
def streamDev : DevModel (List Nat) where
  onWrite := fun d _ => d
  onRead := fun d => (d.headD 0, d.tail)

/-- A loopback-wired peripheral: each data-register read echoes the byte
most recently written to the data register. -/
def echoDev : DevModel Nat where
  onWrite := fun _ v => v
  onRead := fun d => (d, d)

/-- State of the SPI module (`SPI_t`): control register, completion flag
(`SPI_IF` bit of `STATUS`), attached device state, and the trace of register
accesses performed so far. -/
structure SpiHW (δ : Type) where
  CTRL : Nat
  flagIF : Bool
  dev : δ
  trace : List Event

/-- State of the USART module (`USART_t`): the registers `XSPI.h` writes,
the transmit-complete and data-register-empty status flags, attached device
state, and the access trace. -/
structure UsartHW (δ : Type) where
  BAUDCTRLA : Nat
  BAUDCTRLB : Nat
  CTRLB : Nat
  CTRLC : Nat
  flagTXC : Bool
  flagDRE : Bool
  dev : δ
  trace : List Event

/-! ## SPI register access primitives

In the simulated peripheral a data-register write starts and (instantly)
completes a transfer, which sets the completion flag; a data-register read
returns the device's byte and clears the flag (hardware auto-clear on data
access). -/

/-- `spi->DATA = v`. -/
def wDATA {δ : Type} (m : DevModel δ) (s : SpiHW δ) (v : Nat) : SpiHW δ :=
  { s with
    dev := m.onWrite s.dev (v % 256)
    flagIF := true
    trace := s.trace ++ [Event.write Reg.DATA (v % 256)] }

/-- Read of `spi->DATA`. -/
def rDATA {δ : Type} (m : DevModel δ) (s : SpiHW δ) : Nat × SpiHW δ :=
  let p := m.onRead s.dev
  (p.1 % 256,
   { s with
     dev := p.2
     flagIF := false
     trace := s.trace ++ [Event.read Reg.DATA (p.1 % 256)] })

/-- Read of `spi->STATUS`. -/
def rSTATUS {δ : Type} (s : SpiHW δ) : Nat × SpiHW δ :=
  let v := if s.flagIF then SPI_IF_bm else 0
  (v, { s with trace := s.trace ++ [Event.read Reg.STATUS v] })

/-- `while(!(spi->STATUS & SPI_IF_bm));` with explicit fuel: each iteration
reads `STATUS` and exits once the `SPI_IF` bit reads as set. -/
def spinIF {δ : Type} : Nat → SpiHW δ → Option (SpiHW δ)
  | 0, _ => none
  | fuel + 1, s =>
    let p := rSTATUS s
    if p.1 &&& SPI_IF_bm = 0 then spinIF fuel p.2 else some p.2

/-! ## USART register access primitives -/

/-- `usart->DATA = v`: in the simulated peripheral the transfer completes
instantly, setting the transmit-complete flag. -/
def uwDATA {δ : Type} (m : DevModel δ) (s : UsartHW δ) (v : Nat) : UsartHW δ :=
  { s with
    dev := m.onWrite s.dev (v % 256)
    flagTXC := true
    trace := s.trace ++ [Event.write Reg.DATA (v % 256)] }

/-- Read of `usart->DATA`. -/
def urDATA {δ : Type} (m : DevModel δ) (s : UsartHW δ) : Nat × UsartHW δ :=
  let p := m.onRead s.dev
  (p.1 % 256,
   { s with
     dev := p.2
     trace := s.trace ++ [Event.read Reg.DATA (p.1 % 256)] })

/-- Read of `usart->STATUS`: the flag bits currently set. -/
def urSTATUS {δ : Type} (s : UsartHW δ) : Nat × UsartHW δ :=
  let v := (if s.flagTXC then USART_TXCIF_bm else 0) |||
           (if s.flagDRE then USART_DREIF_bm else 0)
  (v, { s with trace := s.trace ++ [Event.read Reg.STATUS v] })

/-- `usart->STATUS = v`: writing a 1 to the `TXCIF` bit clears that flag. -/
def uwSTATUS {δ : Type} (s : UsartHW δ) (v : Nat) : UsartHW δ :=
  { s with
    flagTXC := if (v % 256) &&& USART_TXCIF_bm ≠ 0 then false else s.flagTXC
    trace := s.trace ++ [Event.write Reg.STATUS (v % 256)] }

/-- `while(!(usart->STATUS & USART_TXCIF_bm));` with explicit fuel. -/
def uspinTXC {δ : Type} : Nat → UsartHW δ → Option (UsartHW δ)
  | 0, _ => none
  | fuel + 1, s =>
    let p := urSTATUS s
    if p.1 &&& USART_TXCIF_bm = 0 then uspinTXC fuel p.2 else some p.2

/-! ## The functions of `XSPI.h` -/

/-- `xspi_master_init`: sets the MOSI, SCK and SS pins as outputs through
the port's `DIRSET` register, then writes the SPI control register with the
enable bit, master bit, mode, prescaler, and the optional double-speed and
LSB-first bits.  Registers are 8-bit, hence the truncation of each written
value. -/
def xspi_master_init {δ : Type} (config : xspi_config_t) (mode : SPI_MODE_t)
    (lsb : Bool) (prescaler : SPI_PRESCALER_t) (clk2x : Bool)
    (port : PORT_t) (spi : SpiHW δ) : PORT_t × SpiHW δ :=
  let mask := ((1 <<< config.mosi_pin) ||| (1 <<< config.sck_pin) |||
               (1 <<< config.ss_pin)) % 256
  let ctrl := (SPI_ENABLE_bm ||| SPI_MASTER_bm ||| mode.bits ||| prescaler.bits |||
               (if clk2x then SPI_CLK2X_bm else 0) |||
               (if lsb then SPI_DORD_bm else 0)) % 256
  ({ port with DIR := port.DIR ||| mask },
   { spi with
     CTRL := ctrl
     trace := spi.trace ++ [Event.write Reg.DIRSET mask, Event.write Reg.CTRL ctrl] })

/-- `xspi_transfer_byte`: write the byte to the data register, spin on the
completion flag, then read the data register. -/
def xspi_transfer_byte {δ : Type} (m : DevModel δ) (fuel : Nat)
    (spi : SpiHW δ) (val : Nat) : Option (Nat × SpiHW δ) :=
  let s1 := wDATA m spi val
  match spinIF fuel s1 with
  | none => none
  | some s2 => some (rDATA m s2)

/-- `xspi_send_packet`: for each byte of the buffer in order, write it to
the data register and spin on the completion flag.  The C loop counts `len`
down over the `data` pointer; the buffer is the list. -/
def xspi_send_packet {δ : Type} (m : DevModel δ) (fuel : Nat)
    (spi : SpiHW δ) : List Nat → Option (SpiHW δ)
  | [] => some spi
  | v :: rest =>
    let s1 := wDATA m spi v
    match spinIF fuel s1 with
    | none => none
    | some s2 => xspi_send_packet m fuel s2 rest

/-- `xspi_get_packet`: `len` times, write the filler byte `0xFF` to the data
register, spin on the completion flag, and store the byte read from the data
register into the next buffer position.  Returns the filled buffer. -/
def xspi_get_packet {δ : Type} (m : DevModel δ) (fuel : Nat)
    (spi : SpiHW δ) : Nat → Option (List Nat × SpiHW δ)
  | 0 => some ([], spi)
  | len + 1 =>
    let s1 := wDATA m spi 0xFF
    match spinIF fuel s1 with
    | none => none
    | some s2 =>
      let p := rDATA m s2
      match xspi_get_packet m fuel p.2 len with
      | none => none
      | some q => some (p.1 :: q.1, q.2)

/-- `SERIAL_SPI_UBBRVAL(Baud)` in `uint32_t` arithmetic:
`(Baud < (F_CPU / 2)) ? ((F_CPU / (2 * Baud)) - 1) : 0`.
`F_CPU` comes from `config.h` and is a parameter here.  The multiplication
and the subtraction wrap modulo 2^32; a division by zero (taken branch with
`2 * Baud` equal to 0 modulo 2^32) is C undefined behaviour, embedded as
`none`. -/
def SERIAL_SPI_UBBRVAL (fcpu baud : Nat) : Option Nat :=
  if baud < fcpu / 2 then
    let d := (2 * baud) % 2 ^ 32
    if d = 0 then none
    else some ((fcpu / d + (2 ^ 32 - 1)) % 2 ^ 32)
  else some 0

/-- `xspi_usart_master_init`: computes the 16-bit baud value, writes its
high byte to `BAUDCTRLB` and low byte to `BAUDCTRLA`, then sets `CTRLC` to
master-SPI mode with the given clock mode and enables receiver and
transmitter in `CTRLB`.  The `port` parameter of the C function is never
used by its body; it is threaded through unchanged. -/
def xspi_usart_master_init {δ : Type} (fcpu : Nat) (port : PORT_t)
    (usart : UsartHW δ) (mode : SPI_MODE_t) (baudrate : Nat) :
    Option (PORT_t × UsartHW δ) :=
  match SERIAL_SPI_UBBRVAL fcpu baudrate with
  | none => none
  | some bv =>
    let baudval := bv % 2 ^ 16
    let hi := (baudval >>> 8) % 256
    let lo := (baudval &&& 0xFF) % 256
    let cc := (USART_CMODE_MSPI_gc ||| mode.bits) % 256
    let cb := (USART_RXEN_bm ||| USART_TXEN_bm) % 256
    some (port,
      { usart with
        BAUDCTRLB := hi
        BAUDCTRLA := lo
        CTRLC := cc
        CTRLB := cb
        trace := usart.trace ++
          [Event.write Reg.BAUDCTRLB hi, Event.write Reg.BAUDCTRLA lo,
           Event.write Reg.CTRLC cc, Event.write Reg.CTRLB cb] })

/-- `xspi_usart_transfer_byte`: write the byte to the data register, spin on
the transmit-complete flag, explicitly clear that flag by writing its bit to
`STATUS`, then read the data register. -/
def xspi_usart_transfer_byte {δ : Type} (m : DevModel δ) (fuel : Nat)
    (usart : UsartHW δ) (val : Nat) : Option (Nat × UsartHW δ) :=
  let s1 := uwDATA m usart val
  match uspinTXC fuel s1 with
  | none => none
  | some s2 =>
    let s3 := uwSTATUS s2 USART_TXCIF_bm
    some (urDATA m s3)

/-- `xspi_usart_get_byte`: `return xspi_usart_transfer_byte(usart, 0xFF);`. -/
def xspi_usart_get_byte {δ : Type} (m : DevModel δ) (fuel : Nat)
    (usart : UsartHW δ) : Option (Nat × UsartHW δ) :=
  xspi_usart_transfer_byte m fuel usart 0xFF

/-! ## Trace observers -/

/-- The bytes written to the data register, in order of writing. -/
def dataWritesOf (tr : List Event) : List Nat :=
  tr.filterMap fun e =>
    match e with
    | .write .DATA v => some v
    | _ => none

/-- Whether an event is an explicit write to the status register. -/
def isStatusWrite : Event → Bool
  | .write .STATUS _ => true
  | _ => false

/-- Number of explicit status-register writes in a trace. -/
def statusWriteCount (tr : List Event) : Nat :=
  (tr.filter isStatusWrite).length

/-! ## Helper lemmas -/

/-- A spin on `SPI_IF` with the flag already set exits after a single
status read, whatever the remaining fuel. -/
theorem spinIF_of_flag {δ : Type} (f : Nat) (s : SpiHW δ) (h : s.flagIF = true) :
    spinIF (f + 1) s =
      some { s with trace := s.trace ++ [Event.read Reg.STATUS SPI_IF_bm] } := by
  have h128 : (128 : Nat) &&& 128 = 128 := by decide
  simp [spinIF, rSTATUS, h, SPI_IF_bm, h128]

/-- A spin on `USART_TXCIF` with the flag already set exits after a single
status read, whatever the remaining fuel. -/
theorem uspinTXC_of_flag {δ : Type} (f : Nat) (s : UsartHW δ) (h : s.flagTXC = true) :
    uspinTXC (f + 1) s =
      some { s with trace := s.trace ++
        [Event.read Reg.STATUS
          (USART_TXCIF_bm ||| (if s.flagDRE then USART_DREIF_bm else 0))] } := by
  cases hd : s.flagDRE <;>
    simp [uspinTXC, urSTATUS, h, hd, USART_TXCIF_bm, USART_DREIF_bm]

/-- `dataWritesOf` distributes over trace concatenation. -/
theorem dataWritesOf_append (tr tr2 : List Event) :
    dataWritesOf (tr ++ tr2) = dataWritesOf tr ++ dataWritesOf tr2 :=
  List.filterMap_append tr tr2 _

/-- The event segment of one `xspi_send_packet` iteration. -/
def sendSeg (v : Nat) : List Event :=
  [Event.write Reg.DATA v, Event.read Reg.STATUS SPI_IF_bm]

/-- The event segment of one `xspi_get_packet` iteration that read back the
byte `b`. -/
def getSeg (b : Nat) : List Event :=
  [Event.write Reg.DATA 0xFF, Event.read Reg.STATUS SPI_IF_bm,
   Event.read Reg.DATA b]

/-- The data-register writes of a send trace are the sent bytes. -/
theorem dataWritesOf_sendSeg :
    ∀ data : List Nat, dataWritesOf (data.flatMap sendSeg) = data
  | [] => rfl
  | v :: rest => by
    simp only [List.flatMap_cons, dataWritesOf_append, dataWritesOf_sendSeg rest]
    rfl

/-- The data-register writes of a receive trace are `len` copies of the
filler byte `0xFF`. -/
theorem dataWritesOf_getSeg :
    ∀ bs : List Nat, dataWritesOf (bs.flatMap getSeg) = List.replicate bs.length 0xFF
  | [] => rfl
  | b :: rest => by
    simp only [List.flatMap_cons, dataWritesOf_append, dataWritesOf_getSeg rest]
    rfl

/-- One send iteration per buffer byte: `xspi_send_packet` succeeds with
any positive fuel and appends exactly one write-then-status-poll segment per
byte to the trace. -/
theorem xspi_send_packet_run {δ : Type} (m : DevModel δ) (f : Nat) :
    ∀ (data : List Nat) (spi : SpiHW δ), (∀ b ∈ data, b < 256) →
    ∃ s2, xspi_send_packet m (f + 1) spi data = some s2 ∧
      s2.trace = spi.trace ++ data.flatMap sendSeg
  | [], spi, _ => ⟨spi, rfl, by simp⟩
  | v :: rest, spi, h => by
    have hv : v % 256 = v := Nat.mod_eq_of_lt (h v (List.mem_cons_self v rest))
    rw [xspi_send_packet, spinIF_of_flag f _ rfl]
    obtain ⟨s2, hrun, htr⟩ :=
      xspi_send_packet_run m f rest
        { wDATA m spi v with
          trace := (wDATA m spi v).trace ++ [Event.read Reg.STATUS SPI_IF_bm] }
        (fun b hb => h b (List.mem_cons_of_mem v hb))
    refine ⟨s2, hrun, ?_⟩
    rw [htr]
    simp [wDATA, sendSeg, hv]

/-- Unfolding lemma for the streaming device's write reaction. -/
theorem streamDev_onWrite (d : List Nat) (v : Nat) : streamDev.onWrite d v = d :=
  rfl

/-- Unfolding lemma for the streaming device's read reaction. -/
theorem streamDev_onRead (d : List Nat) :
    streamDev.onRead d = (d.headD 0, d.tail) :=
  rfl

/-- One receive iteration per requested byte: on a streaming peripheral
holding `bs ++ rest`, `xspi_get_packet` of length `bs.length` returns
exactly `bs`, leaves `rest` in the device, and appends one
write-poll-read segment per byte to the trace. -/
theorem xspi_get_packet_run (f : Nat) :
    ∀ (bs rest : List Nat) (spi : SpiHW (List Nat)),
      (∀ b ∈ bs, b < 256) → spi.dev = bs ++ rest →
    ∃ s2, xspi_get_packet streamDev (f + 1) spi bs.length = some (bs, s2) ∧
      s2.dev = rest ∧
      s2.trace = spi.trace ++ bs.flatMap getSeg
  | [], rest, spi, _, hdev => ⟨spi, rfl, hdev, by simp⟩
  | b :: bs, rest, ⟨ctrl, flag, dev, tr⟩, h, hdev => by
    simp only at hdev
    subst hdev
    have hb : b % 256 = b := Nat.mod_eq_of_lt (h b (List.mem_cons_self b bs))
    rw [List.length_cons, xspi_get_packet, spinIF_of_flag f _ rfl]
    simp only [wDATA, rDATA, streamDev_onWrite, streamDev_onRead,
      List.headD_cons, List.tail_cons, hb, Nat.reduceMod,
      List.append_assoc, List.cons_append, List.nil_append, List.singleton_append]
    obtain ⟨s2, hrun, hdev2, htr⟩ :=
      xspi_get_packet_run f bs rest
        ⟨ctrl, false, bs ++ rest,
         tr ++ [Event.write Reg.DATA 255, Event.read Reg.STATUS SPI_IF_bm,
                Event.read Reg.DATA b]⟩
        (fun x hx => h x (List.mem_cons_of_mem b hx)) rfl
    rw [hrun]
    refine ⟨s2, rfl, hdev2, ?_⟩
    rw [htr]
    simp [getSeg]

/-! ## Claim theorems -/

/-- C1: for every combination of clock mode, bit order, prescaler and
double-speed flag, `xspi_master_init` writes the SPI control register with
exactly the bitwise OR of the enable bit, the master bit, the mode's bit
pattern, the prescaler's bit pattern, the double-speed bit when `clk2x`,
and the bit-order bit when `lsb`, with no other bits set; and the written
value does not depend on the prior SPI state or port state. -/
theorem xspi_master_init_ctrl_pure {δ δ2 : Type} (config : xspi_config_t)
    (mode : SPI_MODE_t) (lsb : Bool) (prescaler : SPI_PRESCALER_t) (clk2x : Bool)
    (port port2 : PORT_t) (spi : SpiHW δ) (spi2 : SpiHW δ2) :
    (xspi_master_init config mode lsb prescaler clk2x port spi).2.CTRL =
      (SPI_ENABLE_bm ||| SPI_MASTER_bm ||| mode.bits ||| prescaler.bits |||
       (if clk2x then SPI_CLK2X_bm else 0) ||| (if lsb then SPI_DORD_bm else 0)) ∧
    (xspi_master_init config mode lsb prescaler clk2x port spi).2.CTRL =
      (xspi_master_init config mode lsb prescaler clk2x port2 spi2).2.CTRL := by
  cases mode <;> cases prescaler <;> cases lsb <;> cases clk2x <;>
    exact ⟨rfl, rfl⟩

/-- C7: `xspi_usart_get_byte` is extensionally the same operation as
`xspi_usart_transfer_byte` applied to `0xFF`: on every peripheral model,
fuel and USART state the two produce identical results, hence the same
returned byte and the same register-access trace. -/
theorem xspi_usart_get_byte_eq_transfer_ff {δ : Type} (m : DevModel δ)
    (fuel : Nat) (usart : UsartHW δ) :
    xspi_usart_get_byte m fuel usart = xspi_usart_transfer_byte m fuel usart 0xFF :=
  rfl

/-- C9: `xspi_usart_master_init` never touches the `PORT_t` block it
receives.  Whenever it returns, the returned port state is exactly the
input port state (all direction and output registers unchanged), and the
USART component of the result does not depend on the port argument at
all. -/
theorem xspi_usart_master_init_port_frame {δ : Type} (fcpu : Nat)
    (port port2 : PORT_t) (usart : UsartHW δ) (mode : SPI_MODE_t) (baudrate : Nat) :
    (xspi_usart_master_init fcpu port usart mode baudrate).map Prod.fst =
      (SERIAL_SPI_UBBRVAL fcpu baudrate).map (fun _ => port) ∧
    (xspi_usart_master_init fcpu port usart mode baudrate).map Prod.snd =
      (xspi_usart_master_init fcpu port2 usart mode baudrate).map Prod.snd := by
  unfold xspi_usart_master_init
  cases SERIAL_SPI_UBBRVAL fcpu baudrate <;> exact ⟨rfl, rfl⟩

/-- C8: on a loopback-wired peripheral, which echoes each byte written to
the data register back through the data register, `xspi_transfer_byte`
returns exactly the byte it was given. -/
theorem xspi_transfer_byte_loopback (f : Nat) (spi : SpiHW Nat) (v : Nat)
    (h : v < 256) :
    (xspi_transfer_byte echoDev (f + 1) spi v).map Prod.fst = some v := by
  rw [xspi_transfer_byte, spinIF_of_flag f _ rfl]
  simp [wDATA, rDATA, echoDev, Nat.mod_eq_of_lt h]

/-- C6: after `xspi_usart_transfer_byte` returns, the transmit-complete
flag reads as cleared (the function writes the flag bit to the status
register to clear it); `xspi_transfer_byte`, by contrast, performs no
explicit write to the status register in any execution (the count of
status writes in its trace is unchanged). -/
theorem usart_transfer_clears_txc_spi_transfer_no_status_write
    {δ δ2 : Type} (m : DevModel δ) (f : Nat) (usart : UsartHW δ) (v : Nat)
    (m2 : DevModel δ2) (f2 : Nat) (spi : SpiHW δ2) (w : Nat) :
    (xspi_usart_transfer_byte m (f + 1) usart v).map (fun r => r.2.flagTXC) =
      some false ∧
    (xspi_transfer_byte m2 (f2 + 1) spi w).map (fun r => statusWriteCount r.2.trace) =
      some (statusWriteCount spi.trace) := by
  constructor
  · rw [xspi_usart_transfer_byte, uspinTXC_of_flag f _ rfl]
    simp [uwDATA, uwSTATUS, urDATA, USART_TXCIF_bm]
  · rw [xspi_transfer_byte, spinIF_of_flag f2 _ rfl]
    simp [wDATA, rDATA, statusWriteCount, isStatusWrite]

/-- C10: the baud computation `SERIAL_SPI_UBBRVAL` reaches its
division-by-zero branch exactly when the requested baud rate is zero (for
any base clock of at least 2 Hz that fits in `uint32_t`): the result is
defined iff the baud rate is positive, and at baud rate 0 the computation
is the undefined `F_CPU / (2 * 0)`. -/
theorem ubbrval_defined_iff_pos_baud (fcpu B : Nat) (h2 : 2 ≤ fcpu)
    (hf : fcpu < 2 ^ 32) (hB : B < 2 ^ 32) :
    (SERIAL_SPI_UBBRVAL fcpu B ≠ none ↔ 0 < B) ∧
    SERIAL_SPI_UBBRVAL fcpu 0 = none := by
  have hhalf : 0 < fcpu / 2 := by omega
  have hzero : SERIAL_SPI_UBBRVAL fcpu 0 = none := by
    simp [SERIAL_SPI_UBBRVAL, hhalf]
  refine ⟨⟨fun hne => ?_, fun hpos => ?_⟩, hzero⟩
  · rcases Nat.eq_zero_or_pos B with h0 | h0
    · exact absurd (h0 ▸ hzero) hne
    · exact h0
  · unfold SERIAL_SPI_UBBRVAL
    by_cases hlt : B < fcpu / 2
    · have hfit : 2 * B < 2 ^ 32 := by omega
      have hd : (2 * B) % 2 ^ 32 = 2 * B := Nat.mod_eq_of_lt hfit
      simp [hlt, hd]
      omega
    · simp [hlt]

/-- C2: for every base clock and every positive requested baud rate (both
`uint32_t` values), the 16-bit baud value computed by
`xspi_usart_master_init` equals `fcpu / (2 * B) - 1` (integer division)
when `B < fcpu / 2` and `0` otherwise, reduced modulo 2^16; its high byte
is written to `BAUDCTRLB` and its low byte to `BAUDCTRLA`. -/
theorem xspi_usart_master_init_baud {δ : Type} (fcpu B : Nat) (port : PORT_t)
    (usart : UsartHW δ) (mode : SPI_MODE_t)
    (h0 : 0 < B) (hB : B < 2 ^ 32) (hf : fcpu < 2 ^ 32) :
    ∃ u, xspi_usart_master_init fcpu port usart mode B = some (port, u) ∧
      u.BAUDCTRLB =
        (if B < fcpu / 2 then (fcpu / (2 * B) - 1) % 2 ^ 16 else 0) >>> 8 ∧
      u.BAUDCTRLA =
        (if B < fcpu / 2 then (fcpu / (2 * B) - 1) % 2 ^ 16 else 0) &&& 0xFF := by
  by_cases hlt : B < fcpu / 2
  · have hq1 : 1 ≤ fcpu / (2 * B) := (Nat.one_le_div_iff (by omega)).2 (by omega)
    have hqlt : fcpu / (2 * B) < 2 ^ 32 :=
      lt_of_le_of_lt (Nat.div_le_self _ _) hf
    have hub : SERIAL_SPI_UBBRVAL fcpu B = some (fcpu / (2 * B) - 1) := by
      have hfit : (2 * B) % 2 ^ 32 = 2 * B := Nat.mod_eq_of_lt (by omega)
      simp only [SERIAL_SPI_UBBRVAL, if_pos hlt, hfit]
      rw [if_neg (by omega)]
      have hmod : (fcpu / (2 * B) + (2 ^ 32 - 1)) % 2 ^ 32 = fcpu / (2 * B) - 1 := by
        omega
      rw [hmod]
    simp only [xspi_usart_master_init, hub]
    refine ⟨_, rfl, ?_, ?_⟩
    · show ((fcpu / (2 * B) - 1) % 2 ^ 16) >>> 8 % 256 =
        (if B < fcpu / 2 then (fcpu / (2 * B) - 1) % 2 ^ 16 else 0) >>> 8
      rw [if_pos hlt, Nat.shiftRight_eq_div_pow]
      omega
    · show ((fcpu / (2 * B) - 1) % 2 ^ 16 &&& 0xFF) % 256 =
        (if B < fcpu / 2 then (fcpu / (2 * B) - 1) % 2 ^ 16 else 0) &&& 0xFF
      rw [if_pos hlt]
      exact Nat.mod_eq_of_lt (lt_of_le_of_lt Nat.and_le_right (by norm_num))
  · have hub : SERIAL_SPI_UBBRVAL fcpu B = some 0 := by
      simp [SERIAL_SPI_UBBRVAL, hlt]
    simp only [xspi_usart_master_init, hub]
    refine ⟨_, rfl, ?_, ?_⟩
    · rw [if_neg hlt]
      rfl
    · rw [if_neg hlt]
      rfl

/-- Witness for C2 at base clock 32 MHz and baud rate 8 MHz: the init
succeeds, writing baud value 1 (high byte 0, low byte 1). -/
theorem xspi_usart_master_init_baud_witness :
    0 < 8000000 ∧ 8000000 < 2 ^ 32 ∧ 32000000 < 2 ^ 32 ∧
    ∃ u, xspi_usart_master_init 32000000 ⟨129, 0⟩
            (⟨0, 0, 0, 0, false, false, 0, []⟩ : UsartHW Nat) SPI_MODE_t.mode0
            8000000 = some (⟨129, 0⟩, u) ∧
      u.BAUDCTRLB =
        (if 8000000 < 32000000 / 2 then (32000000 / (2 * 8000000) - 1) % 2 ^ 16
         else 0) >>> 8 ∧
      u.BAUDCTRLA =
        (if 8000000 < 32000000 / 2 then (32000000 / (2 * 8000000) - 1) % 2 ^ 16
         else 0) &&& 0xFF :=
  ⟨by decide, by decide, by decide,
   xspi_usart_master_init_baud 32000000 8000000 ⟨129, 0⟩
     ⟨0, 0, 0, 0, false, false, 0, []⟩ SPI_MODE_t.mode0
     (by decide) (by decide) (by decide)⟩

/-- C4: `xspi_send_packet` writes exactly the buffer's bytes to the data
register in buffer order (one write-then-poll segment per byte, so byte i's
segment is complete before byte i+1 begins), and for the empty buffer it is
a no-op performing no register access: the final state is the initial
state. -/
theorem xspi_send_packet_spec {δ : Type} (m : DevModel δ) (f : Nat)
    (data : List Nat) (spi : SpiHW δ) (h : ∀ b ∈ data, b < 256) :
    ∃ s2, xspi_send_packet m (f + 1) spi data = some s2 ∧
      s2.trace = spi.trace ++ data.flatMap sendSeg ∧
      dataWritesOf s2.trace = dataWritesOf spi.trace ++ data ∧
      (data = [] → s2 = spi) := by
  obtain ⟨s2, hrun, htr⟩ := xspi_send_packet_run m f data spi h
  refine ⟨s2, hrun, htr, ?_, ?_⟩
  · rw [htr, dataWritesOf_append, dataWritesOf_sendSeg]
  · rintro rfl
    exact (Option.some_inj.mp (hrun : some spi = some s2)).symm

/-- Witness for C4 on the loopback device with buffer `[1, 2, 3]`. -/
theorem xspi_send_packet_spec_witness :
    (∀ b ∈ [1, 2, 3], b < 256) ∧
    ∃ s2, xspi_send_packet echoDev 1 (⟨0, false, 0, []⟩ : SpiHW Nat) [1, 2, 3] =
        some s2 ∧
      s2.trace = (⟨0, false, 0, []⟩ : SpiHW Nat).trace ++ [1, 2, 3].flatMap sendSeg ∧
      dataWritesOf s2.trace =
        dataWritesOf (⟨0, false, 0, []⟩ : SpiHW Nat).trace ++ [1, 2, 3] ∧
      ([1, 2, 3] = ([] : List Nat) → s2 = ⟨0, false, 0, []⟩) :=
  ⟨by decide,
   xspi_send_packet_spec echoDev 0 [1, 2, 3] ⟨0, false, 0, []⟩ (by decide)⟩

/-- C3: on a peripheral that yields the bytes `bs` on successive
data-register reads, `xspi_get_packet` of length `bs.length` returns the
buffer `bs` in order, and its trace shows the filler byte `0xFF` written to
the data register exactly `bs.length` times, once before each poll-and-read
segment. -/
theorem xspi_get_packet_spec (f : Nat) (bs : List Nat)
    (spi : SpiHW (List Nat)) (h : ∀ b ∈ bs, b < 256) (hdev : spi.dev = bs) :
    ∃ s2, xspi_get_packet streamDev (f + 1) spi bs.length = some (bs, s2) ∧
      s2.trace = spi.trace ++ bs.flatMap getSeg ∧
      dataWritesOf s2.trace =
        dataWritesOf spi.trace ++ List.replicate bs.length 0xFF := by
  obtain ⟨s2, hrun, _, htr⟩ :=
    xspi_get_packet_run f bs [] spi h (by simpa using hdev)
  refine ⟨s2, hrun, htr, ?_⟩
  rw [htr, dataWritesOf_append, dataWritesOf_getSeg]

/-- Witness for C3 with byte stream `[7, 8, 9]`. -/
theorem xspi_get_packet_spec_witness :
    (∀ b ∈ [7, 8, 9], b < 256) ∧
    (⟨0, false, [7, 8, 9], []⟩ : SpiHW (List Nat)).dev = [7, 8, 9] ∧
    ∃ s2, xspi_get_packet streamDev 1 (⟨0, false, [7, 8, 9], []⟩ : SpiHW (List Nat))
        [7, 8, 9].length = some ([7, 8, 9], s2) ∧
      s2.trace = (⟨0, false, [7, 8, 9], []⟩ : SpiHW (List Nat)).trace ++
        [7, 8, 9].flatMap getSeg ∧
      dataWritesOf s2.trace =
        dataWritesOf (⟨0, false, [7, 8, 9], []⟩ : SpiHW (List Nat)).trace ++
          List.replicate [7, 8, 9].length 0xFF :=
  ⟨by decide, rfl,
   xspi_get_packet_spec 0 [7, 8, 9] ⟨0, false, [7, 8, 9], []⟩ (by decide) rfl⟩

/-- C5: with pin indices in 0–7, `xspi_master_init` sets exactly the MOSI,
SCK and SS bits of the port's direction register (through `DIRSET`) and
leaves every other direction bit unchanged, whatever the prior direction
state. -/
theorem xspi_master_init_dirset {δ : Type} (config : xspi_config_t)
    (mode : SPI_MODE_t) (lsb : Bool) (prescaler : SPI_PRESCALER_t) (clk2x : Bool)
    (port : PORT_t) (spi : SpiHW δ)
    (hm : config.mosi_pin < 8) (hs : config.sck_pin < 8) (hss : config.ss_pin < 8) :
    ((xspi_master_init config mode lsb prescaler clk2x port spi).1.DIR.testBit
        config.mosi_pin = true ∧
     (xspi_master_init config mode lsb prescaler clk2x port spi).1.DIR.testBit
        config.sck_pin = true ∧
     (xspi_master_init config mode lsb prescaler clk2x port spi).1.DIR.testBit
        config.ss_pin = true) ∧
    ∀ i, i ≠ config.mosi_pin → i ≠ config.sck_pin → i ≠ config.ss_pin →
      (xspi_master_init config mode lsb prescaler clk2x port spi).1.DIR.testBit i =
        port.DIR.testBit i := by
  have hdir : (xspi_master_init config mode lsb prescaler clk2x port spi).1.DIR =
      port.DIR ||| (2 ^ config.mosi_pin ||| 2 ^ config.sck_pin ||| 2 ^ config.ss_pin) := by
    show port.DIR ||| ((1 <<< config.mosi_pin ||| 1 <<< config.sck_pin |||
        1 <<< config.ss_pin) % 256) = _
    have hmask : 1 <<< config.mosi_pin ||| 1 <<< config.sck_pin |||
        1 <<< config.ss_pin < 2 ^ 8 := by
      refine Nat.or_lt_two_pow (Nat.or_lt_two_pow ?_ ?_) ?_ <;>
        rw [Nat.shiftLeft_eq, one_mul] <;>
        exact Nat.pow_lt_pow_right (by norm_num) (by omega)
    have hmask2 : 1 <<< config.mosi_pin ||| 1 <<< config.sck_pin |||
        1 <<< config.ss_pin < 256 := hmask
    rw [Nat.mod_eq_of_lt hmask2]
    simp [Nat.shiftLeft_eq]
  constructor
  · refine ⟨?_, ?_, ?_⟩ <;>
      simp [hdir, Nat.testBit_or, Nat.testBit_two_pow]
  · intro i him his hiss
    simp [hdir, Nat.testBit_or, Nat.testBit_two_pow_of_ne (Ne.symm him),
      Nat.testBit_two_pow_of_ne (Ne.symm his), Nat.testBit_two_pow_of_ne (Ne.symm hiss)]

/-- Witness for C5 with pins MOSI=1, SCK=3, SS=4 on a port whose prior
direction register is `0x81`. -/
theorem xspi_master_init_dirset_witness :
    (⟨1, 2, 3, 4⟩ : xspi_config_t).mosi_pin < 8 ∧
    (⟨1, 2, 3, 4⟩ : xspi_config_t).sck_pin < 8 ∧
    (⟨1, 2, 3, 4⟩ : xspi_config_t).ss_pin < 8 ∧
    (((xspi_master_init ⟨1, 2, 3, 4⟩ SPI_MODE_t.mode0 false SPI_PRESCALER_t.div4
          false ⟨0x81, 0⟩ (⟨0, false, 0, []⟩ : SpiHW Nat)).1.DIR.testBit 1 = true ∧
      (xspi_master_init ⟨1, 2, 3, 4⟩ SPI_MODE_t.mode0 false SPI_PRESCALER_t.div4
          false ⟨0x81, 0⟩ (⟨0, false, 0, []⟩ : SpiHW Nat)).1.DIR.testBit 3 = true ∧
      (xspi_master_init ⟨1, 2, 3, 4⟩ SPI_MODE_t.mode0 false SPI_PRESCALER_t.div4
          false ⟨0x81, 0⟩ (⟨0, false, 0, []⟩ : SpiHW Nat)).1.DIR.testBit 4 = true) ∧
     ∀ i, i ≠ (⟨1, 2, 3, 4⟩ : xspi_config_t).mosi_pin →
       i ≠ (⟨1, 2, 3, 4⟩ : xspi_config_t).sck_pin →
       i ≠ (⟨1, 2, 3, 4⟩ : xspi_config_t).ss_pin →
       (xspi_master_init ⟨1, 2, 3, 4⟩ SPI_MODE_t.mode0 false SPI_PRESCALER_t.div4
           false ⟨0x81, 0⟩ (⟨0, false, 0, []⟩ : SpiHW Nat)).1.DIR.testBit i =
         (⟨0x81, 0⟩ : PORT_t).DIR.testBit i) :=
  ⟨by decide, by decide, by decide,
   xspi_master_init_dirset ⟨1, 2, 3, 4⟩ SPI_MODE_t.mode0 false SPI_PRESCALER_t.div4
     false ⟨0x81, 0⟩ ⟨0, false, 0, []⟩ (by decide) (by decide) (by decide)⟩

/-- Witness for C8 at byte `0xA5`. -/
theorem xspi_transfer_byte_loopback_witness :
    165 < 256 ∧
    (xspi_transfer_byte echoDev 1 (⟨0, false, 0, []⟩ : SpiHW Nat) 165).map
      Prod.fst = some 165 :=
  ⟨by decide, xspi_transfer_byte_loopback 0 ⟨0, false, 0, []⟩ 165 (by decide)⟩

/-- Witness for C10 at base clock 32 MHz: defined at baud rate 100,
undefined at baud rate 0. -/
theorem ubbrval_defined_iff_pos_baud_witness :
    2 ≤ 32000000 ∧ 32000000 < 2 ^ 32 ∧ 100 < 2 ^ 32 ∧
    ((SERIAL_SPI_UBBRVAL 32000000 100 ≠ none ↔ 0 < 100) ∧
     SERIAL_SPI_UBBRVAL 32000000 0 = none) :=
  ⟨by decide, by decide, by decide,
   ubbrval_defined_iff_pos_baud 32000000 100 (by decide) (by decide) (by decide)⟩

end XSPI
